import Mathlib

/-!
Verification of the agent-session orchestrator (`src-tauri/src/opencode.rs`,
`src-tauri/src/credentials.rs`) of the `passepartout` repository.

Rust strings are modelled as Lean `String` (a sequence of Unicode scalar
values); Rust's byte-oriented operations (`str::len`, byte-range slicing)
are expressed through `strByteLen` and `byteTake` below.  Rust slicing of a
`str` at a byte index that is not a character boundary panics; such panics
are modelled by `Option`/`none` results.  `u64` arithmetic is modelled with
`Nat` and explicit wrapping modulo `2 ^ 64` (release-profile semantics of
the shipped binary).
-/

namespace Passepartout

/-- UTF-8 byte length of a Rust `str`, i.e. `String::len`. -/
def strByteLen (s : String) : Nat := (s.data.map Char.utf8Size).sum

/-- Byte-slice `&s[..n]` on a list of characters: returns the characters that
make up the first `n` UTF-8 bytes, or `none` when `n` is not a character
boundary or exceeds the string (Rust panics in both cases). -/
def byteTakeL : List Char → Nat → Option (List Char)
  | _, 0 => some []
  | [], _ + 1 => none
  | c :: cs, n + 1 =>
    if c.utf8Size ≤ n + 1 then (byteTakeL cs (n + 1 - c.utf8Size)).map (c :: ·)
    else none

/-- Byte-slice `&s[..n]` on a `String`; `none` models a Rust slicing panic. -/
def byteTake (s : String) (n : Nat) : Option String :=
  (byteTakeL s.data n).map String.mk

/-- `serde_json::Value`: open structured tool-input payloads.  Numeric
payloads are never inspected by the code under verification (only `get` and
`as_str` are used), so the numeric representation is immaterial. -/
inductive Json where
  | null
  | bool (b : Bool)
  | num (n : Int)
  | str (s : String)
  | arr (elems : List Json)
  | obj (fields : List (String × Json))

/-- `Value::get(key)`: object field lookup; `None` on non-objects. -/
def Json.get : Json → String → Option Json
  | .obj fields, key => fields.lookup key
  | _, _ => none

/-- `Value::as_str`. -/
def Json.as_str : Json → Option String
  | .str s => some s
  | _ => none

/-- `u64` wrapping subtraction (release-profile `a - b`), for `a b < 2^64`. -/
def wrapSub (a b : Nat) : Nat := (2 ^ 64 + a - b) % 2 ^ 64

/-- `OpencodeManager::truncate_for_status`.  Source:
`if text.len() <= max_length { text } else { format!("{}...", &text[..max_length - 3]) }`.
For `max_length < 3` the `usize` subtraction underflows and the slice
panics; for a cut that is not a character boundary the slice panics; both
are modelled by `none`. -/
def truncate_for_status (text : String) (max_length : Nat) : Option String :=
  if strByteLen text ≤ max_length then some text
  else if max_length < 3 then none
  else (byteTake text (max_length - 3)).map (fun p => p ++ "...")

/-! ## Raw event data model (`opencode.rs` deserialization structs) -/

/-- `ToolTime { start: Option<u64>, end: Option<u64> }`. -/
structure ToolTime where
  start : Option Nat
  «end» : Option Nat

/-- `ToolState`. -/
structure ToolState where
  status : Option String
  title : Option String
  input : Option Json
  output : Option String
  error : Option String
  time : Option ToolTime

/-- `EventPart`. -/
structure EventPart where
  part_type : String
  session_id : Option String
  tool : Option String
  state : Option ToolState

/-- `EventStatus`. -/
structure EventStatus where
  status_type : String
  attempt : Option Nat

/-- `EventProperties`. -/
structure EventProperties where
  session_id : Option String
  status : Option EventStatus
  part : Option EventPart

/-- A raw SSE `Event`. -/
structure Event where
  event_type : String
  properties : Option EventProperties

/-! ## Normalized UI-facing status updates -/

/-- `StatusUpdateDetails`. -/
structure StatusUpdateDetails where
  full_message : Option String
  tool_name : Option String
  timestamp : Nat
  input : Option Json
  output : Option String
  error : Option String
  duration : Option Nat

/-- `StatusUpdate`. -/
structure StatusUpdate where
  update_type : String
  message : Option String
  details : Option StatusUpdateDetails

/-! ## Status normalization helpers -/

/-- Rust `str::to_lowercase()`: lowercase every character (the tool names
compared against are ASCII, where Rust and Lean lowercasing agree).  Defined
structurally over the character list so proofs can evaluate it. -/
def strToLower (s : String) : String := String.mk (s.data.map Char.toLower)

/-- `OpencodeManager::get_tool_description`: the title verbatim when present,
else a fixed table keyed by the lowercased tool name, else
`format!("Running {}", tool_name)`. -/
def get_tool_description (tool_name : String) (title : Option String) : String :=
  match title with
  | some t => t
  | none =>
    let descriptions : List (String × String) :=
      [("read", "Reading file"),
       ("write", "Writing file"),
       ("edit", "Editing file"),
       ("bash", "Running command"),
       ("glob", "Searching files"),
       ("grep", "Searching content"),
       ("list_directory", "Listing directory"),
       ("web_search", "Searching the web"),
       ("web_fetch", "Fetching webpage")]
    match descriptions.lookup (strToLower tool_name) with
    | some d => d
    | none => "Running " ++ tool_name

/-- Rust `path.rsplit('/').next().unwrap_or(path)`: the final component of a
`/`-separated path (`rsplit` always yields at least one item, so the
`unwrap_or` arm is unreachable). -/
def last_path_component (path : String) : String :=
  String.mk (path.data.foldl (fun acc c => if c = '/' then [] else acc ++ [c]) [])

/-- `OpencodeManager::format_tool_input_for_status`, parameterized by
`url_host`, the behaviour of the external `url::Url::parse(u)` call:
`none` models a parse error, `some h` a successful parse with `host_str()`
result `h`.  The overall `none` result models a truncation panic. -/
def format_tool_input_for_status (url_host : String → Option (Option String))
    (tool_name : String) (input : Option Json) : Option String :=
  match input with
  | none => some ""
  | some input =>
    match strToLower tool_name with
    | "read" | "write" | "edit" =>
      match (((input.get "file_path").orElse fun _ => input.get "path").orElse
          fun _ => input.get "filename").bind Json.as_str with
      | some path => some (last_path_component path)
      | none => some ""
    | "bash" =>
      match (input.get "command").bind Json.as_str with
      | some c => truncate_for_status c 50
      | none => some ""
    | "glob" =>
      match (input.get "pattern").bind Json.as_str with
      | some p => truncate_for_status p 40
      | none => some ""
    | "grep" =>
      match (input.get "pattern").bind Json.as_str with
      | some p => (truncate_for_status p 30).map (fun t => "\"" ++ t ++ "\"")
      | none => some ""
    | "web_search" =>
      match (input.get "query").bind Json.as_str with
      | some q => (truncate_for_status q 40).map (fun t => "\"" ++ t ++ "\"")
      | none => some ""
    | "web_fetch" =>
      match (input.get "url").bind Json.as_str with
      | some u =>
        match url_host u with
        | some host => some (host.getD u)
        | none => truncate_for_status u 40
      | none => some ""
    | _ => some ""

/-- `OpencodeManager::format_tool_input_for_log`: the untruncated variant
(no truncation, hence total). -/
def format_tool_input_for_log (tool_name : String) (input : Option Json) : String :=
  match input with
  | none => ""
  | some input =>
    match strToLower tool_name with
    | "read" | "write" | "edit" =>
      match (((input.get "file_path").orElse fun _ => input.get "path").orElse
          fun _ => input.get "filename").bind Json.as_str with
      | some path => path
      | none => ""
    | "bash" =>
      match (input.get "command").bind Json.as_str with
      | some c => c
      | none => ""
    | "glob" =>
      match (input.get "pattern").bind Json.as_str with
      | some p => p
      | none => ""
    | "grep" =>
      match (input.get "pattern").bind Json.as_str with
      | some p => "\"" ++ p ++ "\""
      | none => ""
    | "web_search" =>
      match (input.get "query").bind Json.as_str with
      | some q => "\"" ++ q ++ "\""
      | none => ""
    | "web_fetch" =>
      match (input.get "url").bind Json.as_str with
      | some u => u
      | none => ""
    | _ => ""

/-- `OpencodeManager::process_event`, parameterized by `url_host` (behaviour
of the external URL parser) and `now` (the `now_millis()` clock reading at
normalization time).  Result: `none` models a panic, `some none` a discarded
event (`None` in Rust), `some (some u)` a produced `StatusUpdate`. -/
def process_event (url_host : String → Option (Option String)) (now : Nat)
    (event : Event) (session_id : String) : Option (Option StatusUpdate) :=
  match event.properties with
  | none => some none
  | some props =>
    match event.event_type with
    | "session.status" =>
      match props.session_id with
      | none => some none
      | some event_session_id =>
        if event_session_id ≠ session_id then some none
        else
          match props.status with
          | none => some none
          | some status =>
            match status.status_type with
            | "busy" =>
              some (some ⟨"busy", some "Thinking...",
                some ⟨none, none, now, none, none, none, none⟩⟩)
            | "idle" =>
              some (some ⟨"idle", none,
                some ⟨none, none, now, none, none, none, none⟩⟩)
            | "retry" =>
              some (some ⟨"retry",
                some ("Retrying (attempt " ++ toString (status.attempt.getD 1) ++ ")..."),
                some ⟨none, none, now, none, none, none, none⟩⟩)
            | _ => some none
    | "message.part.updated" =>
      match props.part with
      | none => some none
      | some part =>
        match part.session_id with
        | none => some none
        | some part_session_id =>
          if part_session_id ≠ session_id then some none
          else
            match part.part_type with
            | "tool" =>
              match part.tool with
              | none => some none
              | some tool_name =>
                match part.state with
                | none => some none
                | some state =>
                  match state.status with
                  | none => some none
                  | some status_str =>
                    match status_str with
                    | "running" =>
                      match format_tool_input_for_status url_host tool_name state.input with
                      | none => none
                      | some input_summary_truncated =>
                        let description := get_tool_description tool_name state.title
                        let input_summary_full := format_tool_input_for_log tool_name state.input
                        some (some ⟨"tool",
                          some (if input_summary_truncated = "" then description
                                else description ++ ": " ++ input_summary_truncated),
                          some ⟨some (if input_summary_full = "" then description
                                      else description ++ ": " ++ input_summary_full),
                            some tool_name, now, state.input, none, none, none⟩⟩)
                    | "completed" =>
                      some (some ⟨"tool-completed",
                        some (get_tool_description tool_name state.title ++ " completed"),
                        some ⟨none, some tool_name, now, none, state.output, none,
                          state.time.bind fun t =>
                            t.«end».bind fun e => t.start.map fun s => wrapSub e s⟩⟩)
                    | "error" =>
                      some (some ⟨"tool-error",
                        some ("Error: " ++ (state.error.getD "Unknown error")),
                        some ⟨none, some tool_name, now, none, none, state.error,
                          state.time.bind fun t =>
                            t.«end».bind fun e => t.start.map fun s => wrapSub e s⟩⟩)
                    | _ => some none
            | "reasoning" =>
              some (some ⟨"reasoning", some "Reasoning...",
                some ⟨none, none, now, none, none, none, none⟩⟩)
            | "text" =>
              some (some ⟨"generating", some "Generating response...",
                some ⟨none, none, now, none, none, none, none⟩⟩)
            | _ => some none
    | "session.idle" =>
      match props.session_id with
      | none => some none
      | some event_session_id =>
        if event_session_id ≠ session_id then some none
        else
          some (some ⟨"idle", none,
            some ⟨none, none, now, none, none, none, none⟩⟩)
    | _ => some none

/-! ## `send_message` (`opencode.rs:301-381`)

The HTTP layer and `serde_json` are external collaborators; they are
modelled by the `resp` argument (outcome of `client.post(...).send().await`
and of `response.text().await`) and the `parse` argument (outcome of
`serde_json::from_str::<PromptResponse>`).  The spawned event-subscription
task is tracked by the `Bool` component of the result: `true` iff
`event_handle.abort()` was executed before returning.  Dropping a tokio
`JoinHandle` without calling `abort` detaches the task (it keeps running),
so the `Bool` is exactly "the subscription task was cancelled". -/

/-- `PromptResponsePart`. -/
structure PromptResponsePart where
  part_type : String
  text : Option String

/-- `PromptResponse` (the `info` field is `#[allow(dead_code)]` and unused). -/
structure PromptResponse where
  info : Option Json
  parts : Option (List PromptResponsePart)

/-- Outcome of the message-send HTTP request: response status plus the
outcome of reading the response body. -/
structure HttpResponse where
  status : Nat
  body : Except String String

/-- The error values produced by `send_message`; each constructor records
the data interpolated into the corresponding `format!` string. -/
inductive SendError where
  /-- `format!("Failed to send message: {}", e)` -/
  | network (msg : String)
  /-- `format!("API error ({}): {}", status, body)` -/
  | api (status : Nat) (body : String)
  /-- `format!("Failed to read response body: {}", e)` -/
  | bodyRead (msg : String)
  /-- `format!("Failed to parse response: {}. Body: {}", e, snippet)` -/
  | parseFail (msg : String) (snippet : String)
deriving DecidableEq

/-- Result of one `send_message` call; `panicked` models a Rust panic
(a byte slice of the body falling inside a multi-byte character). -/
inductive SendOutcome where
  | panicked
  | err (e : SendError)
  | ok (answer : String)
deriving DecidableEq

/-- `StatusCode::is_success`: `200 ≤ s < 300`. -/
def status_is_success (s : Nat) : Bool := 200 ≤ s && s < 300

/-- The text extraction at the end of `send_message` (`opencode.rs:366-380`):
keep parts whose `type` is `"text"`, drop those without a `text` payload,
join with `"\n"`, and fall back to the literal placeholder. -/
def extract_answer (pr : PromptResponse) : String :=
  match pr.parts with
  | some parts =>
    let text_parts := (parts.filter fun p => p.part_type == "text").filterMap fun p => p.text
    if text_parts.isEmpty then "No response received."
    else String.intercalate "\n" text_parts
  | none => "No response received."

/-- `OpencodeManager::send_message` control flow.  In order: the request is
sent (network failure escalates); a non-success status escalates with the
status and the body (empty when unreadable, `unwrap_or_default`); a body
read failure escalates; the body is sliced to 500 bytes for a debug print;
an unparseable body escalates with a 200-byte snippet; only after a
successful parse is `event_handle.abort()` executed (the `Bool`), and the
joined text parts are returned. -/
def send_message (resp : Except String HttpResponse)
    (parse : String → Except String PromptResponse) : SendOutcome × Bool :=
  match resp with
  | .error e => (.err (.network e), false)
  | .ok r =>
    if status_is_success r.status then
      match r.body with
      | .error e => (.err (.bodyRead e), false)
      | .ok response_text =>
        match byteTake response_text (min (strByteLen response_text) 500) with
        | none => (.panicked, false)
        | some _ =>
          match parse response_text with
          | .error e =>
            match byteTake response_text (min (strByteLen response_text) 200) with
            | none => (.panicked, false)
            | some snippet => (.err (.parseFail e snippet), false)
          | .ok prompt_response => (.ok (extract_answer prompt_response), true)
    else
      (.err (.api r.status (r.body.toOption.getD "")), false)

/-! ## Credentials (`credentials.rs`) and the server spawn environment -/

/-- `Provider`. -/
inductive Provider where
  | anthropic
  | openai
  | google
deriving DecidableEq

/-- `Provider::as_str`. -/
def Provider.as_str : Provider → String
  | .anthropic => "anthropic"
  | .openai => "openai"
  | .google => "google"

/-- `Provider::env_var_name`. -/
def Provider.env_var_name : Provider → String
  | .anthropic => "ANTHROPIC_API_KEY"
  | .openai => "OPENAI_API_KEY"
  | .google => "GOOGLE_API_KEY"

/-- `Provider::from_str`. -/
def Provider.from_str (s : String) : Option Provider :=
  match strToLower s with
  | "anthropic" => some .anthropic
  | "openai" => some .openai
  | "google" => some .google
  | _ => none

/-- `Provider::all`. -/
def Provider.all : List Provider := [.anthropic, .openai, .google]

/-- `CredentialManager::get_credentials_as_env_vars`, with the stored
credential file abstracted as `store` (what `get_credential` returns for
each provider).  The source loops over `Provider::all()` pushing a pair for
each stored key. -/
def get_credentials_as_env_vars (store : Provider → Option String) :
    List (String × String) :=
  Provider.all.foldl
    (fun env_vars provider =>
      match store provider with
      | some api_key => env_vars ++ [(provider.env_var_name, api_key)]
      | none => env_vars)
    []

/-- The explicit `.env(...)` bindings of the `Command` that spawns the
OpenCode server (`opencode.rs:202-214`): exactly `PATH`,
`OPENCODE_SERVER_USERNAME`, `OPENCODE_SERVER_PASSWORD` and
`PLAYWRIGHT_BROWSERS_PATH` — no provider credential variables. -/
def spawn_env_vars (path_env username password playwright_browsers : String) :
    List (String × String) :=
  [("PATH", path_env),
   ("OPENCODE_SERVER_USERNAME", username),
   ("OPENCODE_SERVER_PASSWORD", password),
   ("PLAYWRIGHT_BROWSERS_PATH", playwright_browsers)]

/-- The child process environment: `Command` inherits the parent environment
and the explicit `.env` bindings override it. -/
def child_env (parent explicit : List (String × String)) (name : String) :
    Option String :=
  match explicit.lookup name with
  | some v => some v
  | none => parent.lookup name

/-! ## Health-check polling (`opencode.rs:227-255`)

The loop performs an attempt; on success it breaks; otherwise it increments
`retries`, errors out when `retries >= max_retries`, sleeps 500 ms, and
repeats.  `ok i` abstracts whether the *(i+1)*-th attempt succeeds.  The
recursion is on `fuel = max_retries - 1 - retries`, the number of further
loop iterations still permitted. -/

/-- `max_retries = 60`. -/
def health_max_retries : Nat := 60

/-- `tokio::time::sleep(Duration::from_millis(500))`. -/
def health_delay_ms : Nat := 500

/-- One observable step of the polling loop. -/
inductive PollStep where
  | attempt (i : Nat)
  | sleepMs (ms : Nat)
deriving DecidableEq

/-- Outcome of the polling loop. -/
inductive PollResult where
  /-- health check passed; `retries` attempts had failed before it -/
  | ok (retries : Nat)
  /-- `format!("OpenCode server failed to start after {} retries", max_retries)`;
  `attempts` failed attempts were made in total -/
  | startupTimeout (attempts : Nat)
deriving DecidableEq

/-- The polling loop: trace of performed steps plus the result. -/
def poll_loop (ok : Nat → Bool) : Nat → Nat → List PollStep × PollResult
  | retries, fuel =>
    if ok retries then ([.attempt retries], .ok retries)
    else
      match fuel with
      | 0 => ([.attempt retries], .startupTimeout (retries + 1))
      | fuel' + 1 =>
        let rest := poll_loop ok (retries + 1) fuel'
        (.attempt retries :: .sleepMs health_delay_ms :: rest.1, rest.2)

/-- The health-check phase of `OpencodeManager::new`: start at `retries = 0`
with `max_retries - 1` further iterations permitted. -/
def health_check (ok : Nat → Bool) : List PollStep × PollResult :=
  poll_loop ok 0 (health_max_retries - 1)

/-! ## Spec-side definitions used to state the claims -/

/-- Spec reading of the final-answer extraction: "concatenate all
`text`-typed parts with newline separators; if none, return the literal
placeholder".  Stated independently of `extract_answer` for comparison. -/
def spec_answer (pr : PromptResponse) : String :=
  match pr.parts with
  | none => "No response received."
  | some parts =>
    let texts := parts.filterMap fun p => if p.part_type == "text" then p.text else none
    if texts = [] then "No response received." else String.intercalate "\n" texts

/-- The session id a raw event carries for filtering purposes:
`properties.sessionID` for `session.status` / `session.idle`,
`properties.part.sessionID` for `message.part.updated`. -/
def carried_session_id (event : Event) : Option String :=
  match event.properties with
  | none => none
  | some props =>
    match event.event_type with
    | "session.status" => props.session_id
    | "session.idle" => props.session_id
    | "message.part.updated" => props.part.bind fun part => part.session_id
    | _ => none

/-- The string `s` survives `truncate_for_status s limit` without a slicing
panic: either it fits, or the cut at `limit - 3` bytes lands on a character
boundary. -/
def trunc_safe (s : String) (limit : Nat) : Bool :=
  strByteLen s ≤ limit || (byteTakeL s.data (limit - 3)).isSome

/-- The tool input of a running-tool event reaches no panicking truncation:
per tool, the extracted string must be `trunc_safe` at that tool's limit
(`bash` 50, `glob` 40, `grep` 30, `web_search` 40, and `web_fetch` 40 on the
unparseable-URL fallback).  Always true for ASCII input strings. -/
def tool_input_safe (url_host : String → Option (Option String))
    (tool_name : String) (input : Option Json) : Bool :=
  match input with
  | none => true
  | some input =>
    match strToLower tool_name with
    | "bash" =>
      match (input.get "command").bind Json.as_str with
      | some c => trunc_safe c 50
      | none => true
    | "glob" =>
      match (input.get "pattern").bind Json.as_str with
      | some p => trunc_safe p 40
      | none => true
    | "grep" =>
      match (input.get "pattern").bind Json.as_str with
      | some p => trunc_safe p 30
      | none => true
    | "web_search" =>
      match (input.get "query").bind Json.as_str with
      | some q => trunc_safe q 40
      | none => true
    | "web_fetch" =>
      match (input.get "url").bind Json.as_str with
      | some u =>
        match url_host u with
        | some _ => true
        | none => trunc_safe u 40
      | none => true
    | _ => true

/-- An event is truncation-safe: if it is a running-tool part update, its
input satisfies `tool_input_safe` (all other events perform no byte
slicing). -/
def event_safe (url_host : String → Option (Option String)) (event : Event) : Bool :=
  match event.properties with
  | none => true
  | some props =>
    match event.event_type with
    | "message.part.updated" =>
      match props.part with
      | none => true
      | some part =>
        match part.part_type, part.tool, part.state with
        | "tool", some tool_name, some state =>
          match state.status with
          | some "running" => tool_input_safe url_host tool_name state.input
          | _ => true
        | _, _, _ => true
    | _ => true

/-- The step trace of a polling run in which every attempt fails, starting
at retry counter `r` with `f` further iterations permitted. -/
def all_fail_trace : Nat → Nat → List PollStep
  | r, 0 => [.attempt r]
  | r, f + 1 => .attempt r :: .sleepMs health_delay_ms :: all_fail_trace (r + 1) f

/-! ## Helper lemmas -/

theorem byteTakeL_sum (l : List Char) :
    ∀ (n : Nat) (p : List Char), byteTakeL l n = some p →
    (p.map Char.utf8Size).sum = n := by
  induction l with
  | nil =>
    intro n p h
    match n with
    | 0 => simp [byteTakeL] at h; subst h; simp
    | _ + 1 => simp [byteTakeL] at h
  | cons c cs ih =>
    intro n p h
    match n with
    | 0 => simp [byteTakeL] at h; subst h; simp
    | m + 1 =>
      simp only [byteTakeL] at h
      split at h
      · next hle =>
        obtain ⟨q, hq, rfl⟩ := Option.map_eq_some'.mp h
        have := ih (m + 1 - c.utf8Size) q hq
        simp only [List.map_cons, List.sum_cons]
        omega
      · exact absurd h (by simp)

theorem byteTake_strByteLen (s : String) (n : Nat) (p : String)
    (h : byteTake s n = some p) : strByteLen p = n := by
  obtain ⟨l, hl, rfl⟩ := Option.map_eq_some'.mp h
  exact byteTakeL_sum s.data n l hl

theorem strByteLen_append (s t : String) :
    strByteLen (s ++ t) = strByteLen s + strByteLen t := by
  rcases s with ⟨sd⟩
  rcases t with ⟨td⟩
  show ((sd ++ td).map Char.utf8Size).sum = _
  simp [strByteLen]

theorem length_le_strByteLen (s : String) : s.length ≤ strByteLen s := by
  rcases s with ⟨l⟩
  show l.length ≤ (l.map Char.utf8Size).sum
  induction l with
  | nil => simp
  | cons c cs ih =>
    have h1 : 0 < c.utf8Size := Char.utf8Size_pos c
    simp only [List.length_cons, List.map_cons, List.sum_cons]
    omega

theorem filter_text_filterMap (l : List PromptResponsePart) :
    ((l.filter fun p => p.part_type == "text").filterMap fun p => p.text) =
    l.filterMap fun p => if p.part_type == "text" then p.text else none := by
  induction l with
  | nil => rfl
  | cons a l ih =>
    by_cases ha : a.part_type = "text" <;>
      cases hat : a.text <;>
        simp [List.filter_cons, List.filterMap_cons, ha, hat, ih]

theorem truncate_isSome_of_safe (s : String) (limit : Nat) (h3 : 3 ≤ limit)
    (hs : trunc_safe s limit = true) :
    (truncate_for_status s limit).isSome = true := by
  unfold trunc_safe at hs
  unfold truncate_for_status
  split
  · rfl
  · next hgt =>
    rw [if_neg (by omega)]
    have hb : (byteTakeL s.data (limit - 3)).isSome = true := by
      rcases Bool.or_eq_true_iff.mp hs with h | h
      · exact absurd (of_decide_eq_true h) hgt
      · exact h
    obtain ⟨l, hl⟩ := Option.isSome_iff_exists.mp hb
    simp [byteTake, hl]

theorem format_tool_input_isSome_of_safe (url_host : String → Option (Option String))
    (tool_name : String) (input : Option Json)
    (h : tool_input_safe url_host tool_name input = true) :
    (format_tool_input_for_status url_host tool_name input).isSome = true := by
  cases input with
  | none => rfl
  | some j =>
    simp only [tool_input_safe] at h
    simp only [format_tool_input_for_status]
    repeat' split
    all_goals try rfl
    all_goals repeat' split at h
    all_goals simp_all [Option.isSome_map']
    all_goals exact truncate_isSome_of_safe _ _ (by omega) h

theorem poll_loop_all_fail (ok : Nat → Bool) :
    ∀ (fuel retries : Nat), (∀ i, retries ≤ i → i ≤ retries + fuel → ok i = false) →
    poll_loop ok retries fuel =
      (all_fail_trace retries fuel, .startupTimeout (retries + fuel + 1)) := by
  intro fuel
  induction fuel with
  | zero =>
    intro r h
    have hr : ok r = false := h r le_rfl (by omega)
    simp [poll_loop, hr, all_fail_trace]
  | succ f ih =>
    intro r h
    have hr : ok r = false := h r le_rfl (by omega)
    have hrec := ih (r + 1) (fun i h1 h2 => h i (by omega) (by omega))
    have harith : r + 1 + f + 1 = r + (f + 1) + 1 := by omega
    simp only [poll_loop, hr, Bool.false_eq_true, if_false, hrec, all_fail_trace, harith]

/-! ## Claim C1 -/

/-- Claim C1: the claim states that the event-subscription task is cancelled
after `send_message` resolves on every completion path.  The code executes
`event_handle.abort()` only after a successful parse; every error path
returns first, merely dropping the `JoinHandle`, which detaches the tokio
task instead of cancelling it.  This theorem evaluates the embedded control
flow on all five completion paths: the cancellation flag is `false` on each
of the four error paths and `true` only on the success path. -/
theorem C1_event_task_not_cancelled_on_error :
    send_message (.error "connection refused") (fun _ => .error "e") =
      (.err (.network "connection refused"), false) ∧
    send_message (.ok ⟨500, .ok "boom"⟩) (fun _ => .error "e") =
      (.err (.api 500 "boom"), false) ∧
    send_message (.ok ⟨200, .error "read failed"⟩) (fun _ => .error "e") =
      (.err (.bodyRead "read failed"), false) ∧
    send_message (.ok ⟨200, .ok "notjson"⟩) (fun _ => .error "expected value") =
      (.err (.parseFail "expected value" "notjson"), false) ∧
    send_message (.ok ⟨200, .ok "resp"⟩) (fun _ => .ok ⟨none, none⟩) =
      (.ok "No response received.", true) := by
  refine ⟨rfl, rfl, rfl, by decide, rfl⟩

/-! ## Claim C2 -/

/-- Claim C2: the claim states that the spawned server's environment binds,
for every provider with a stored credential, that provider's named variable
to the stored secret.  `get_credentials_as_env_vars` would produce exactly
those bindings, but it is never called: the spawn at `opencode.rs:202-214`
sets only `PATH`, `OPENCODE_SERVER_USERNAME`, `OPENCODE_SERVER_PASSWORD` and
`PLAYWRIGHT_BROWSERS_PATH`.  With a stored `anthropic` key and a parent
environment without `ANTHROPIC_API_KEY`, the child environment has no
`ANTHROPIC_API_KEY` binding. -/
theorem C2_credentials_not_injected_into_spawn_env :
    get_credentials_as_env_vars
        (fun p => match p with | .anthropic => some "sk-test" | _ => none) =
      [("ANTHROPIC_API_KEY", "sk-test")] ∧
    child_env []
        (spawn_env_vars "/tools:/usr/bin" "passepartout" "hunter2"
          "/tools/playwright_browsers")
        "ANTHROPIC_API_KEY" = none := by
  refine ⟨rfl, by decide⟩

/-! ## Claim C3 -/

/-- Claim C3 counterexample: the claim quantifies over every text and every
limit, but `truncate_for_status` panics (modelled `none`) instead of
returning a result when the limit is below 3 (the `usize` subtraction
`max_length - 3` underflows and the slice is out of range) and when the cut
at `limit - 3` bytes falls inside a multi-byte character (`"éééé"` is 8
bytes, the cut at byte 3 splits the second `é`). -/
theorem C3_truncate_counterexample :
    (2 < strByteLen "abc" ∧ truncate_for_status "abc" 2 = none) ∧
    (6 < strByteLen "éééé" ∧ truncate_for_status "éééé" 6 = none) := by
  decide

/-- Claim C3 (amended): for every text and every limit with `3 ≤ limit`,
when the text's UTF-8 byte length exceeds the limit and the cut at
`limit - 3` bytes falls on a character boundary (`byteTake` succeeds —
always the case for ASCII text), the result is the first `limit - 3` bytes
followed by `"..."` and its byte length is exactly the limit (the returned
form `p ++ "..."` ends with `"..."` by construction); texts whose byte
length is at most the limit are returned unchanged. -/
theorem C3_truncate_amended (text : String) (limit : Nat) (h3 : 3 ≤ limit) :
    (strByteLen text ≤ limit → truncate_for_status text limit = some text) ∧
    (limit < strByteLen text → ∀ p, byteTake text (limit - 3) = some p →
      truncate_for_status text limit = some (p ++ "...") ∧
      strByteLen (p ++ "...") = limit) := by
  constructor
  · intro hle
    simp [truncate_for_status, hle]
  · intro hgt p hp
    have hnle : ¬ strByteLen text ≤ limit := by omega
    have hlen : strByteLen p = limit - 3 := byteTake_strByteLen _ _ _ hp
    constructor
    · unfold truncate_for_status
      rw [if_neg hnle, if_neg (show ¬ limit < 3 by omega), hp]
      rfl
    · rw [strByteLen_append]
      have hdots : strByteLen "..." = 3 := by decide
      omega

/-- Claim C3 witness: `"abcdef"` is 6 bytes, the limit 5 cuts at byte 2. -/
theorem C3_truncate_amended_witness :
    truncate_for_status "abcdef" 5 = some ("ab" ++ "...") ∧
    strByteLen ("ab" ++ "...") = 5 :=
  (C3_truncate_amended "abcdef" 5 (by decide)).2 (by decide) "ab" (by decide)

/-! ## Claim C7 -/

/-- Claim C7: during manager initialization the health endpoint is polled
with a fixed 500 ms delay between attempts; if no attempt succeeds, the loop
fails with the startup-timeout error after exactly 60 failed attempts and
never more: the full-failure trace contains exactly 60 attempt steps, every
sleep step in it is 500 ms, and the result is `startupTimeout 60`. -/
theorem C7_health_check_timeout (ok : Nat → Bool)
    (h : ∀ i, i < health_max_retries → ok i = false) :
    (health_check ok).2 = .startupTimeout 60 ∧
    ((health_check ok).1.countP fun s =>
      match s with | .attempt _ => true | _ => false) = 60 ∧
    ((health_check ok).1.all fun s =>
      match s with | .sleepMs ms => ms == 500 | _ => true) = true ∧
    health_delay_ms = 500 := by
  have hall : poll_loop ok 0 59 = (all_fail_trace 0 59, .startupTimeout 60) := by
    have hmain := poll_loop_all_fail ok 59 0
      (fun i h1 h2 => h i (show i < health_max_retries by
        simp only [health_max_retries]; omega))
    simpa using hmain
  unfold health_check
  rw [show health_max_retries - 1 = 59 from rfl, hall]
  refine ⟨rfl, by decide, by decide, rfl⟩

/-- Claim C7 witness: the always-failing health check. -/
theorem C7_health_check_timeout_witness :
    (health_check fun _ => false).2 = .startupTimeout 60 ∧
    ((health_check fun _ => false).1.countP fun s =>
      match s with | .attempt _ => true | _ => false) = 60 ∧
    ((health_check fun _ => false).1.all fun s =>
      match s with | .sleepMs ms => ms == 500 | _ => true) = true ∧
    health_delay_ms = 500 :=
  C7_health_check_timeout (fun _ => false) (fun _ _ => rfl)

/-! ## Claim C4 -/

/-- Claim C4 counterexample: for a completed tool event whose `time.end`
(3) is smaller than `time.start` (5), the normalized duration is the
wrapped `u64` value `2 ^ 64 - 2`, which does not equal `end - start = -2`
as the claim requires (no `u64` can). -/
theorem C4_duration_counterexample :
    process_event (fun _ => none) 7
        ⟨"message.part.updated", some ⟨none, none, some ⟨"tool", some "s1",
          some "read",
          some ⟨some "completed", none, none, none, none,
            some ⟨some 5, some 3⟩⟩⟩⟩⟩ "s1" =
      some (some ⟨"tool-completed", some "Reading file completed",
        some ⟨none, some "read", 7, none, none, none,
          some 18446744073709551614⟩⟩) ∧
    ¬ ((18446744073709551614 : Int) = 3 - 5) :=
  ⟨by rfl, by decide⟩

/-- Claim C4 (amended): for every tool part-updated event with status
completed or error, if `time`, `time.start` or `time.end` is absent then
the normalized duration is absent (never zero, never a placeholder); when
both are present the duration equals `(end - start) mod 2 ^ 64`, which is
exactly `end - start` whenever `start ≤ end`. -/
theorem C4_duration_amended (url_host : String → Option (Option String))
    (now : Nat) (sid tool_name : String) (st : ToolState)
    (u : StatusUpdate) (d : StatusUpdateDetails)
    (hst : st.status = some "completed" ∨ st.status = some "error")
    (hu : process_event url_host now
        ⟨"message.part.updated",
         some ⟨none, none, some ⟨"tool", some sid, some tool_name, some st⟩⟩⟩ sid
        = some (some u))
    (hd : u.details = some d) :
    (st.time = none → d.duration = none) ∧
    (∀ t, st.time = some t → t.start = none ∨ t.«end» = none →
      d.duration = none) ∧
    (∀ t s e, st.time = some t → t.start = some s → t.«end» = some e →
      d.duration = some (wrapSub e s) ∧
      (s ≤ e → e < 2 ^ 64 → d.duration = some (e - s))) := by
  rcases st with ⟨sst, title, inp, outp, err, time⟩
  rcases hst with h | h <;>
    (subst h
     simp only [process_event] at hu
     simp only [ne_eq, not_true_eq_false, if_false, eq_self_iff_true] at hu
     rw [Option.some_inj, Option.some_inj] at hu
     subst hu
     simp only at hd
     rw [Option.some_inj] at hd
     subst hd
     refine ⟨?_, ?_, ?_⟩
     · intro ht
       subst ht
       rfl
     · rintro ⟨ts, te⟩ ht hor
       subst ht
       rcases hor with h' | h' <;> subst h'
       · cases te <;> rfl
       · rfl
     · rintro ⟨ts, te⟩ s e ht hs' he'
       subst ht
       simp only at hs' he'
       subst hs'
       subst he'
       refine ⟨rfl, fun hle hlt => ?_⟩
       show some (wrapSub e s) = some (e - s)
       have hws : wrapSub e s = e - s := by
         unfold wrapSub
         have h64 : (2 : Nat) ^ 64 = 18446744073709551616 := by norm_num
         rw [h64] at hlt ⊢
         omega
       rw [hws])

/-- Claim C4 witness: a completed tool event with `start = 3`, `end = 7`
yields duration `wrapSub 7 3 = 4`. -/
theorem C4_duration_amended_witness :
    ((⟨none, some "read", 0, none, none, none, some (wrapSub 7 3)⟩ :
      StatusUpdateDetails).duration = some (wrapSub 7 3)) ∧
    ((⟨none, some "read", 0, none, none, none, some (wrapSub 7 3)⟩ :
      StatusUpdateDetails).duration = some 4) := by
  have h := (C4_duration_amended (fun _ => none) 0 "s1" "read"
      ⟨some "completed", none, none, none, none, some ⟨some 3, some 7⟩⟩
      ⟨"tool-completed", some "Reading file completed",
        some ⟨none, some "read", 0, none, none, none, some (wrapSub 7 3)⟩⟩
      ⟨none, some "read", 0, none, none, none, some (wrapSub 7 3)⟩
      (Or.inl rfl) rfl rfl).2.2 ⟨some 3, some 7⟩ 3 7 rfl rfl rfl
  exact ⟨h.1, h.2 (by decide) (by decide)⟩

/-! ## Claim C5 -/

/-- Claim C5: for every raw event whose carried session id (the
`properties.sessionID` of `session.status`/`session.idle` events, the
`part.sessionID` of `message.part.updated` events) differs from the active
session id — in particular when it is absent — `process_event` yields no
`StatusUpdate` (and does not panic). -/
theorem C5_session_filter (url_host : String → Option (Option String))
    (now : Nat) (event : Event) (session_id : String)
    (h : carried_session_id event ≠ some session_id) :
    process_event url_host now event session_id = some none := by
  rcases event with ⟨ty, props⟩
  rcases props with _ | props
  · rfl
  · simp only [process_event]
    split
    · have h' : props.session_id ≠ some session_id := h
      split
      · rfl
      · next esid heq =>
        rw [heq] at h'
        split
        · rfl
        · next hne => exact absurd (congrArg some (not_not.mp hne)) h'
    · have h' : props.part.bind (fun part => part.session_id) ≠ some session_id := h
      split
      · rfl
      · next part heq =>
        rw [heq] at h'
        simp only [Option.some_bind] at h'
        split
        · rfl
        · next psid heq2 =>
          rw [heq2] at h'
          split
          · rfl
          · next hne => exact absurd (congrArg some (not_not.mp hne)) h'
    · have h' : props.session_id ≠ some session_id := h
      split
      · rfl
      · next esid heq =>
        rw [heq] at h'
        split
        · rfl
        · next hne => exact absurd (congrArg some (not_not.mp hne)) h'
    · rfl

/-- Claim C5 witness: a `session.status` busy event for session `s2` is
discarded while session `s1` is active. -/
theorem C5_session_filter_witness :
    process_event (fun _ => none) 0
      ⟨"session.status", some ⟨some "s2", some ⟨"busy", none⟩, none⟩⟩ "s1" =
      some none :=
  C5_session_filter (fun _ => none) 0
    ⟨"session.status", some ⟨some "s2", some ⟨"busy", none⟩, none⟩⟩ "s1"
    (by decide)

/-! ## Claim C9 -/

/-- Claim C9: every `StatusUpdate` produced by `process_event` carries a
details record whose `timestamp` is the clock reading `now` taken at
normalization time — in particular it is never a value copied from the raw
event's payload, since it equals `now` no matter what `time.start` or
`time.end` the event carries. -/
theorem C9_timestamp_from_clock (url_host : String → Option (Option String))
    (now : Nat) (event : Event) (session_id : String) (u : StatusUpdate)
    (h : process_event url_host now event session_id = some (some u)) :
    u.details.map StatusUpdateDetails.timestamp = some now := by
  rcases event with ⟨ty, props⟩
  rcases props with _ | props
  · exact absurd h (by simp [process_event])
  · simp only [process_event] at h
    repeat' split at h
    all_goals first
      | exact Option.noConfusion h
      | exact Option.noConfusion (Option.some.inj h)
      | (cases Option.some.inj (Option.some.inj h); rfl)

/-- Claim C9 witness: a busy event normalized at clock reading 12345. -/
theorem C9_timestamp_from_clock_witness :
    (StatusUpdate.mk "busy" (some "Thinking...")
      (some ⟨none, none, 12345, none, none, none, none⟩)).details.map
        StatusUpdateDetails.timestamp = some 12345 :=
  C9_timestamp_from_clock (fun _ => none) 12345
    ⟨"session.status", some ⟨some "s1", some ⟨"busy", none⟩, none⟩⟩ "s1"
    ⟨"busy", some "Thinking...", some ⟨none, none, 12345, none, none, none, none⟩⟩
    rfl

/-! ## Claim C10 -/

/-- Claim C10 counterexample: `process_event` is not total.  A running
`bash` tool event whose command is 26 copies of the two-byte character `é`
(52 bytes > 50) reaches `truncate_for_status`, which slices at byte 47 —
the middle of the 24th character — and panics (modelled `none`). -/
theorem C10_process_event_counterexample :
    process_event (fun _ => none) 0
      ⟨"message.part.updated", some ⟨none, none, some ⟨"tool", some "s1",
        some "bash",
        some ⟨some "running", none,
          some (.obj [("command", .str (String.mk (List.replicate 26 'é')))]),
          none, none, none⟩⟩⟩⟩ "s1" = none := by
  rfl

/-- Claim C10 (amended): `process_event` returns an `Option StatusUpdate`
without panicking for every raw event satisfying the truncation-boundary
condition `event_safe`: whenever a running-tool event's summarized input
string (bash command, glob/grep pattern, web-search query, or
unparseable-URL fallback) exceeds its truncation limit, the cut at
`limit - 3` bytes must fall on a character boundary (always true for ASCII
strings; every non-running-tool event is unconditionally safe).  This
includes tool completed/error events whose `time.end` is smaller than
`time.start` (the `u64` subtraction wraps in release builds).  On an unsafe
event — a multi-byte input cut mid-character — the code panics. -/
theorem C10_process_event_total_amended
    (url_host : String → Option (Option String)) (now : Nat)
    (event : Event) (session_id : String)
    (h : event_safe url_host event = true) :
    (process_event url_host now event session_id).isSome = true := by
  rcases event with ⟨ty, props⟩
  rcases props with _ | props
  · rfl
  · simp only [process_event]
    split
    · repeat' split
      all_goals rfl
    · split
      · rfl
      · next part hpp =>
        split
        · rfl
        · next psid hpsid =>
          split
          · rfl
          · next hne =>
            split
            · split
              · rfl
              · next tool_name htool =>
                split
                · rfl
                · next state hstate =>
                  split
                  · rfl
                  · next status_str hstatus =>
                    split
                    · split
                      · next hf =>
                        exfalso
                        have hpt : part.part_type = "tool" := by assumption
                        simp only [event_safe, hpp, hpt, htool, hstate,
                          hstatus] at h
                        have hsome :=
                          format_tool_input_isSome_of_safe url_host tool_name
                            state.input h
                        rw [hf] at hsome
                        exact Bool.noConfusion hsome
                      · rfl
                    · rfl
                    · rfl
                    · rfl
            · rfl
            · rfl
            · rfl
    · repeat' split
      all_goals rfl
    · rfl

/-- Claim C10 witness: a running `bash` event with a 60-byte ASCII command
(exceeding the 50-byte limit, but cut on a character boundary) normalizes
without panicking. -/
theorem C10_process_event_total_amended_witness :
    (process_event (fun _ => none) 0
      ⟨"message.part.updated", some ⟨none, none, some ⟨"tool", some "s1",
        some "bash",
        some ⟨some "running", none,
          some (.obj [("command", .str (String.mk (List.replicate 60 'a')))]),
          none, none, none⟩⟩⟩⟩ "s1").isSome = true :=
  C10_process_event_total_amended (fun _ => none) 0
    ⟨"message.part.updated", some ⟨none, none, some ⟨"tool", some "s1",
      some "bash",
      some ⟨some "running", none,
        some (.obj [("command", .str (String.mk (List.replicate 60 'a')))]),
        none, none, none⟩⟩⟩⟩ "s1" (by decide)

/-! ## Claim C6 -/

/-- Claim C6: for every successfully parsed prompt response, `send_message`
returns the concatenation of all text-typed parts joined with newline
separators; with zero text parts, or no parts list at all, it returns the
literal `"No response received."` — stated via `spec_answer`, the direct
transcription of the spec's wording (text-typed parts without a text
payload contribute nothing). -/
theorem C6_answer_extraction (resp : Except String HttpResponse)
    (parse : String → Except String PromptResponse)
    (r : HttpResponse) (text : String) (pr : PromptResponse)
    (hr : resp = .ok r) (hs : status_is_success r.status = true)
    (hb : r.body = .ok text)
    (hprint : (byteTake text (min (strByteLen text) 500)).isSome = true)
    (hp : parse text = .ok pr) :
    send_message resp parse = (.ok (extract_answer pr), true) ∧
    extract_answer pr = spec_answer pr := by
  constructor
  · subst hr
    obtain ⟨w, hw⟩ := Option.isSome_iff_exists.mp hprint
    simp [send_message, hs, hb, hw, hp]
  · unfold extract_answer spec_answer
    cases pr.parts with
    | none => rfl
    | some parts =>
      simp only [filter_text_filterMap]
      rcases hres : parts.filterMap
          fun p => if p.part_type == "text" then p.text else none with
        _ | _ <;> simp [hres]

/-- Claim C6 witness: a response with text parts `"Hello"` and `"World"`
(and one non-text part) yields `"Hello\nWorld"` with the subscription
cancelled. -/
theorem C6_answer_extraction_witness :
    (send_message (.ok ⟨200, .ok "B"⟩)
        (fun _ => .ok ⟨none, some [⟨"text", some "Hello"⟩, ⟨"step-start", none⟩,
          ⟨"text", some "World"⟩]⟩) =
      (.ok (extract_answer ⟨none, some [⟨"text", some "Hello"⟩,
        ⟨"step-start", none⟩, ⟨"text", some "World"⟩]⟩), true) ∧
    extract_answer ⟨none, some [⟨"text", some "Hello"⟩, ⟨"step-start", none⟩,
        ⟨"text", some "World"⟩]⟩ =
      spec_answer ⟨none, some [⟨"text", some "Hello"⟩, ⟨"step-start", none⟩,
        ⟨"text", some "World"⟩]⟩) ∧
    extract_answer ⟨none, some [⟨"text", some "Hello"⟩, ⟨"step-start", none⟩,
        ⟨"text", some "World"⟩]⟩ = "Hello\nWorld" :=
  ⟨C6_answer_extraction (.ok ⟨200, .ok "B"⟩)
      (fun _ => .ok ⟨none, some [⟨"text", some "Hello"⟩, ⟨"step-start", none⟩,
        ⟨"text", some "World"⟩]⟩)
      ⟨200, .ok "B"⟩ "B"
      ⟨none, some [⟨"text", some "Hello"⟩, ⟨"step-start", none⟩,
        ⟨"text", some "World"⟩]⟩
      rfl rfl rfl (by decide) rfl,
   by decide⟩

/-! ## Claim C8 -/

set_option maxRecDepth 4000 in
/-- Claim C8 counterexample: a 201-byte body ending in a two-byte character
fails to parse; building the error's 200-byte snippet slices the body in
the middle of that character and panics (modelled `.panicked`) instead of
escalating a parse error to the caller as the claim requires. -/
theorem C8_escalation_counterexample :
    send_message
      (.ok ⟨200, .ok (String.mk (List.replicate 199 'a' ++ ['é']))⟩)
      (fun _ => .error "bad") = (.panicked, false) := by
  rfl

/-- Claim C8 (amended): when the message-send request returns a non-success
status, `send_message` fails with an error carrying that status code and
the response body (empty when the body is unreadable); when the final
response body cannot be parsed, it fails with a parse error whose embedded
snippet is the first `min (byte length) 200` bytes of the body — hence at
most 200 bytes and at most 200 characters — provided that cut falls on a
character boundary (always the case for ASCII bodies; otherwise the slice
panics, as does the debug print's 500-byte slice); with that proviso these
request/response failures escalate to the caller as the send result. -/
theorem C8_escalation_amended (resp : Except String HttpResponse)
    (parse : String → Except String PromptResponse) :
    (∀ r, resp = .ok r → status_is_success r.status = false →
      send_message resp parse =
        (.err (.api r.status (r.body.toOption.getD "")), false)) ∧
    (∀ r text e snip, resp = .ok r → status_is_success r.status = true →
      r.body = .ok text →
      (byteTake text (min (strByteLen text) 500)).isSome = true →
      parse text = .error e →
      byteTake text (min (strByteLen text) 200) = some snip →
      send_message resp parse = (.err (.parseFail e snip), false) ∧
      strByteLen snip ≤ 200 ∧ snip.length ≤ 200) := by
  constructor
  · intro r hr hf
    subst hr
    simp [send_message, hf]
  · intro r text e snip hr hs hb h500 hpe h200
    subst hr
    obtain ⟨w, hw⟩ := Option.isSome_iff_exists.mp h500
    refine ⟨by simp [send_message, hs, hb, hw, hpe, h200], ?_, ?_⟩
    · rw [byteTake_strByteLen text _ snip h200]
      omega
    · calc snip.length ≤ strByteLen snip := length_le_strByteLen snip
        _ ≤ 200 := by rw [byteTake_strByteLen text _ snip h200]; omega

/-- Claim C8 witness: a 404 response escalates with status and body; an
unparseable 3-byte ASCII body escalates with the full body as snippet. -/
theorem C8_escalation_amended_witness :
    send_message (.ok ⟨404, .ok "nf"⟩) (fun _ => .error "bad") =
      (.err (.api 404 "nf"), false) ∧
    (send_message (.ok ⟨200, .ok "xyz"⟩) (fun _ => .error "bad") =
      (.err (.parseFail "bad" "xyz"), false) ∧
      strByteLen "xyz" ≤ 200 ∧ "xyz".length ≤ 200) :=
  ⟨(C8_escalation_amended (.ok ⟨404, .ok "nf"⟩) (fun _ => .error "bad")).1
      ⟨404, .ok "nf"⟩ rfl rfl,
   (C8_escalation_amended (.ok ⟨200, .ok "xyz"⟩) (fun _ => .error "bad")).2
      ⟨200, .ok "xyz"⟩ "xyz" "bad" "xyz" rfl rfl rfl (by decide) rfl
      (by decide)⟩

end Passepartout
